import Mathlib

/-!
Verification development for the scaling utilities of
`src/atlas/optimizers/optimizer_utils.py`.

The module is a thin numerical utility: a sign-flip helper for task
collections, and a stateful `Scaler` that computes per-column statistics
(min/max or mean/std) over a collection of source tasks and applies
forward/reverse elementwise transforms.

Embedding conventions:
* numpy 2D arrays are `Mat := List (List ℚ)` (rows of rationals); exact
  rational arithmetic stands in for floating point, following the spec's
  "exact arithmetic" reading of the formulas;
* a numpy array of arbitrary rank (as passed to `transform` /
  `inverse_transform`, whose precondition is `len(sample.shape) == 2`)
  is the inductive `NpA` with 1-, 2- and 3-dimensional constructors;
* Python's `raise` / failed `assert` is `Except.error`; a function body
  that falls off the end (every `if/elif` chain without `else`) returns
  `none`, Python's implicit `None`;
* a Python dict of statistics is the structure `Stats` whose absent keys
  are the empty list; a not-yet-assigned `param_stats` / `value_stats`
  attribute is `Option.none`;
* `np.std` is the square root of the per-column population variance.
  The square root of a rational is irrational in general, so the
  embedding takes the square-root function `s : ℚ → ℚ` as a parameter;
  theorems about standardization statistics assume only `s 0 = 0`,
  a property of the real square root;
* the in-place statistics update of `_compute_stats` is explicit state
  passing: the method returns the updated `Scaler`.
-/

/-- A 2D numeric array: a list of rows. -/
abbrev Mat : Type := List (List ℚ)

/-- A numpy array of rank 1, 2 or 3, as passed to `Scaler.transform` and
`Scaler.inverse_transform`, which assert `len(sample.shape) == 2`. -/
inductive NpA : Type where
  | mk1 (v : List ℚ)
  | mk2 (m : Mat)
  | mk3 (t : List Mat)
deriving DecidableEq, Repr

/-- `len(a.shape)` of a numpy array. -/
def NpA.ndim : NpA → Nat
  | .mk1 _ => 1
  | .mk2 _ => 2
  | .mk3 _ => 3

/-- A source task: a dict with a 2D `params` array and a 2D `values`
array. -/
structure SrcTask : Type where
  params : Mat
  values : Mat
deriving DecidableEq, Repr

/-- A transformed task, as built by `fit_transform_tasks` /
`transform_tasks`: each key holds the result of a transform call, which
is `None` (`none`) when the dispatch falls through. -/
structure OTask : Type where
  params : Option Mat
  values : Option Mat
deriving DecidableEq, Repr

/-- `flip_source_tasks`: flip the sign of the source tasks.  The loop
appends, for every task, a new dict with `params` unchanged and
`values` replaced by `-1*task['values']` (elementwise negation). -/
def flip_source_tasks (source_tasks : List SrcTask) : List SrcTask :=
  source_tasks.map fun task =>
    { params := task.params
      values := task.values.map fun row => row.map fun v => -1 * v }

/-- A statistics dict (`param_stats` / `value_stats`).  The keys present
depend on the scaling mode; an absent key is the empty list. -/
structure Stats : Type where
  min : List ℚ := []
  max : List ℚ := []
  mean : List ℚ := []
  std : List ℚ := []
deriving DecidableEq, Repr

/-- The statistics dict with no keys. -/
def emptyStats : Stats := {}

/-- The `Scaler` object's state.  `param_stats` / `value_stats` are
attributes first assigned inside `_compute_stats`, hence `Option`:
`none` before the first fit. -/
structure Scaler : Type where
  param_type : String
  value_type : String
  is_fit : Bool
  param_stats : Option Stats
  value_stats : Option Stats
deriving DecidableEq, Repr

/-- `Scaler.SUPP_TYPES`. -/
def Scaler.SUPP_TYPES : List String :=
  ["standardization", "normalization", "identity"]

/-- `Scaler.__init__(param_type, value_type)`: raises
`NotImplementedError` when either mode is unsupported, otherwise stores
both modes and sets `is_fit = False`.  No statistics attributes exist
yet. -/
def Scaler.new (param_type value_type : String) : Except Unit Scaler :=
  if ¬ param_type ∈ Scaler.SUPP_TYPES then .error ()
  else if ¬ value_type ∈ Scaler.SUPP_TYPES then .error ()
  else .ok { param_type := param_type, value_type := value_type,
             is_fit := false, param_stats := none, value_stats := none }

/-- Read a statistics attribute that the lifecycle guarantees has been
assigned (reading it unfit would be an `AttributeError`, undefined use). -/
def pstats (sc : Scaler) : Stats := sc.param_stats.getD emptyStats

/-- Read `value_stats`; see `pstats`. -/
def vstats (sc : Scaler) : Stats := sc.value_stats.getD emptyStats

/-- `zipWith3 f xs ys zs`: elementwise combination of three lists,
truncating at the shortest — the shape of numpy's elementwise
broadcasting for arrays of equal length. -/
def zipWith3 (f : ℚ → ℚ → ℚ → ℚ) : List ℚ → List ℚ → List ℚ → List ℚ
  | x :: xs, y :: ys, z :: zs => f x y z :: zipWith3 f xs ys zs
  | _, _, _ => []

/-- `Scaler.identity(x, direction)`: returns `x` whatever the
direction. -/
def Scaler.identity (x : Mat) (_direction : String) : Mat := x

/-- `Scaler.standardize(x, mean, std, direction)` on a 2D array with
per-column `mean`/`std` vectors: forward is `(x - mean) / std`, reverse
is `x*std + mean`, elementwise with column broadcasting; any other
direction falls off the end of the `if/elif` chain and returns `None`. -/
def Scaler.standardize (x : Mat) (mean std : List ℚ) (direction : String) :
    Option Mat :=
  if direction = "forward" then
    some (x.map fun row => zipWith3 (fun a m s => (a - m) / s) row mean std)
  else if direction = "reverse" then
    some (x.map fun row => zipWith3 (fun a m s => a * s + m) row mean std)
  else none

/-- `Scaler.normalize(x, min, max, direction)`: forward is
`(x - min) / (max - min)`, reverse is `x*(max - min) + min`, elementwise
with column broadcasting; any other direction returns `None`. -/
def Scaler.normalize (x : Mat) (mn mx : List ℚ) (direction : String) :
    Option Mat :=
  if direction = "forward" then
    some (x.map fun row => zipWith3 (fun a lo hi => (a - lo) / (hi - lo)) row mn mx)
  else if direction = "reverse" then
    some (x.map fun row => zipWith3 (fun a lo hi => a * (hi - lo) + lo) row mn mx)
  else none

/-- Column `c` of a matrix (`X[:, c]`); rows are long enough in
well-formed 2D data, `0` pads the ill-formed case. -/
def getCol (X : Mat) (c : Nat) : List ℚ := X.map fun row => row.getD c 0

/-- The number of columns of a (well-formed) matrix. -/
def numCols (X : Mat) : Nat := (X.headD []).length

/-- Apply a per-column reduction along `axis=0`, yielding one entry per
column, as `np.amax/np.amin/np.mean/np.std(..., axis=0)` do. -/
def colwise (f : List ℚ → ℚ) (X : Mat) : List ℚ :=
  (List.range (numCols X)).map fun c => f (getCol X c)

/-- `np.mean` of a 1D sample (note `[].sum / 0 = 0` in ℚ; numpy would
produce NaN there, but statistics are only computed on non-empty data). -/
def npMean (xs : List ℚ) : ℚ := xs.sum / xs.length

/-- The population variance, `np.std` squared. -/
def popVar (xs : List ℚ) : ℚ :=
  (xs.map fun x => (x - npMean xs) ^ 2).sum / xs.length

/-- `np.std` of a 1D sample: the square root `s` of the population
variance, with `s` a parameter (see the module docstring). -/
def npStd (s : ℚ → ℚ) (xs : List ℚ) : ℚ := s (popVar xs)

/-- The statistics dict computed by `_compute_stats` for one data type:
`normalization` stores per-column `max`/`min`; `standardization` stores
per-column `mean` and `std` with `np.where(std == 0., 1., std)` applied;
any other mode (in practice `identity`) stores nothing. -/
def statsFor (s : ℚ → ℚ) (ty : String) (X : Mat) : Stats :=
  if ty = "normalization" then
    { max := colwise (fun col => col.foldl Max.max (col.headD 0)) X
      min := colwise (fun col => col.foldl Min.min (col.headD 0)) X }
  else if ty = "standardization" then
    { mean := colwise npMean X
      std := (colwise (npStd s) X).map fun v => if v = 0 then 1 else v }
  else {}

/-- All tasks' `params` arrays concatenated along the sample axis
(`np.concatenate(..., axis=0)`). -/
def allParams (source_tasks : List SrcTask) : Mat :=
  (source_tasks.map SrcTask.params).flatten

/-- All tasks' `values` arrays concatenated along the sample axis. -/
def allValues (source_tasks : List SrcTask) : Mat :=
  (source_tasks.map SrcTask.values).flatten

/-- `Scaler._compute_stats(source_tasks)`: concatenates the tasks'
params and values (the concatenations are 2D by construction here,
discharging the asserts) and stores `param_stats` / `value_stats`
computed per the configured modes.  The Python method mutates `self`;
the embedding returns the updated state. -/
def Scaler.compute_stats (s : ℚ → ℚ) (sc : Scaler)
    (source_tasks : List SrcTask) : Scaler :=
  { sc with
    param_stats := some (statsFor s sc.param_type (allParams source_tasks))
    value_stats := some (statsFor s sc.value_type (allValues source_tasks)) }

/-- The per-task transformed dict built inside the `fit_transform_tasks`
loop: params and values are transformed with the `forward` direction of
the configured mode, reading the freshly stored statistics. -/
def transTask (sc : Scaler) (task : SrcTask) : OTask :=
  { params :=
      if sc.param_type = "normalization" then
        Scaler.normalize task.params (pstats sc).min (pstats sc).max "forward"
      else if sc.param_type = "standardization" then
        Scaler.standardize task.params (pstats sc).mean (pstats sc).std "forward"
      else if sc.param_type = "identity" then
        some (Scaler.identity task.params "forward")
      else none
    values :=
      if sc.value_type = "normalization" then
        Scaler.normalize task.values (vstats sc).min (vstats sc).max "forward"
      else if sc.value_type = "standardization" then
        Scaler.standardize task.values (vstats sc).mean (vstats sc).std "forward"
      else if sc.value_type = "identity" then
        some (Scaler.identity task.values "forward")
      else none }

/-- `Scaler.fit_transform_tasks(source_tasks)`: registers the statistics
via `_compute_stats`, then appends one transformed task per input task
(this loop's `append` is inside the `for`).  Returns the updated scaler
state together with the returned list. -/
def Scaler.fit_transform_tasks (s : ℚ → ℚ) (sc : Scaler)
    (source_tasks : List SrcTask) : Scaler × List OTask :=
  let sc' := Scaler.compute_stats s sc source_tasks
  (sc', source_tasks.map fun task => transTask sc' task)

/-- The body of `Scaler.transform(sample, type)` after the 2D assert:
dispatch on `type`, then on the configured mode for that type, applying
the `forward` direction with the fitted statistics.  Both `if/elif`
chains lack an `else`, so an unknown `type` or mode returns `None`. -/
def Scaler.transform2 (sc : Scaler) (sample : Mat) (ty : String) :
    Option Mat :=
  if ty = "params" then
    if sc.param_type = "normalization" then
      Scaler.normalize sample (pstats sc).min (pstats sc).max "forward"
    else if sc.param_type = "standardization" then
      Scaler.standardize sample (pstats sc).mean (pstats sc).std "forward"
    else if sc.param_type = "identity" then
      some (Scaler.identity sample "forward")
    else none
  else if ty = "values" then
    if sc.value_type = "normalization" then
      Scaler.normalize sample (vstats sc).min (vstats sc).max "forward"
    else if sc.value_type = "standardization" then
      Scaler.standardize sample (vstats sc).mean (vstats sc).std "forward"
    else if sc.value_type = "identity" then
      some (Scaler.identity sample "forward")
    else none
  else none

/-- `Scaler.transform(sample, type)`: asserts the sample is a 2D array
(`assert len(sample.shape)==2`, `Except.error` on failure), then runs
the dispatch `Scaler.transform2`. -/
def Scaler.transform (sc : Scaler) (sample : NpA) (ty : String) :
    Except Unit (Option Mat) :=
  match sample with
  | .mk2 m => .ok (sc.transform2 m ty)
  | _ => .error ()

/-- The body of `Scaler.inverse_transform(sample, type)` after the 2D
assert.  As in the source: the `normalization` and `standardization`
branches call the forward formulas, only the `identity` branches pass
direction `reverse`. -/
def Scaler.inverse_transform2 (sc : Scaler) (sample : Mat) (ty : String) :
    Option Mat :=
  if ty = "params" then
    if sc.param_type = "normalization" then
      Scaler.normalize sample (pstats sc).min (pstats sc).max "forward"
    else if sc.param_type = "standardization" then
      Scaler.standardize sample (pstats sc).mean (pstats sc).std "forward"
    else if sc.param_type = "identity" then
      some (Scaler.identity sample "reverse")
    else none
  else if ty = "values" then
    if sc.value_type = "normalization" then
      Scaler.normalize sample (vstats sc).min (vstats sc).max "forward"
    else if sc.value_type = "standardization" then
      Scaler.standardize sample (vstats sc).mean (vstats sc).std "forward"
    else if sc.value_type = "identity" then
      some (Scaler.identity sample "reverse")
    else none
  else none

/-- `Scaler.inverse_transform(sample, type)`: the 2D assert, then the
dispatch `Scaler.inverse_transform2`. -/
def Scaler.inverse_transform (sc : Scaler) (sample : NpA) (ty : String) :
    Except Unit (Option Mat) :=
  match sample with
  | .mk2 m => .ok (sc.inverse_transform2 m ty)
  | _ => .error ()

/-- `Scaler.transform_tasks(tasks)`, transcribed with the source's
indentation: `transformed_source_tasks.append(trans_task)` sits OUTSIDE
the `for` loop, so the loop only rebinds `trans_task` and after the loop
the single last `trans_task` is appended to the still-empty accumulator.
On an empty input `trans_task` is unbound at the append (`NameError`),
embedded as `none`. -/
def Scaler.transform_tasks (sc : Scaler) (tasks : List SrcTask) :
    Option (List OTask) :=
  let last := tasks.foldl
    (fun (_ : Option OTask) task =>
      some { params := sc.transform2 task.params "params"
             values := sc.transform2 task.values "values" })
    none
  match last with
  | none => none
  | some trans_task => some ([] ++ [trans_task])


/-- `isErr e` is `true` when the call raised (`Except.error`). -/
def isErr {α : Type} (e : Except Unit α) : Bool :=
  match e with
  | .error _ => true
  | .ok _ => false

/-- The configured scaling mode for a `type` flag: `param_type` for
`params`, `value_type` for `values`. -/
def modeOf (sc : Scaler) (ty : String) : String :=
  if ty = "params" then sc.param_type else sc.value_type

lemma map_eq_self_of {l : List (List ℚ)} {f : List ℚ → List ℚ}
    (h : ∀ x ∈ l, f x = x) : l.map f = l := by
  induction l with
  | nil => rfl
  | cons a t ih =>
    simp only [List.map_cons, h a (by simp)]
    rw [ih fun x hx => h x (List.mem_cons_of_mem _ hx)]

lemma zipWith3_std_roundtrip (r : List ℚ) : ∀ (mean std : List ℚ),
    r.length ≤ mean.length → r.length ≤ std.length →
    (∀ z ∈ std, z ≠ 0) →
    zipWith3 (fun a m s => a * s + m)
      (zipWith3 (fun a m s => (a - m) / s) r mean std) mean std = r := by
  induction r with
  | nil => intro mean std _ _ _; rfl
  | cons a r ih =>
    intro mean std hm hs hz
    cases mean with
    | nil => simp at hm
    | cons mi mean =>
      cases std with
      | nil => simp at hs
      | cons si std =>
        have hsi : si ≠ 0 := hz si (by simp)
        simp only [zipWith3]
        refine congrArg₂ (· :: ·) ?_ ?_
        · rw [div_mul_cancel₀ _ hsi]; ring
        · exact ih mean std (by simpa using hm) (by simpa using hs)
            fun z hzz => hz z (List.mem_cons_of_mem _ hzz)

lemma zipWith3_norm_roundtrip (r : List ℚ) : ∀ (mn mx : List ℚ),
    r.length ≤ mn.length → r.length ≤ mx.length →
    (∀ p ∈ mn.zip mx, p.1 ≠ p.2) →
    zipWith3 (fun a lo hi => a * (hi - lo) + lo)
      (zipWith3 (fun a lo hi => (a - lo) / (hi - lo)) r mn mx) mn mx = r := by
  induction r with
  | nil => intro mn mx _ _ _; rfl
  | cons a r ih =>
    intro mn mx hm hs hz
    cases mn with
    | nil => simp at hm
    | cons lo mn =>
      cases mx with
      | nil => simp at hs
      | cons hi mx =>
        have hne : hi - lo ≠ 0 :=
          sub_ne_zero.mpr (Ne.symm (hz (lo, hi) (by simp)))
        simp only [zipWith3]
        refine congrArg₂ (· :: ·) ?_ ?_
        · rw [div_mul_cancel₀ _ hne]; ring
        · exact ih mn mx (by simpa using hm) (by simpa using hs)
            fun p hp => hz p (List.mem_cons_of_mem _ hp)

/-- C4: `flip_source_tasks` returns a collection of the same length in
which the `i`-th task's `values` are the elementwise negation of the
input's and the `i`-th task's `params` are unchanged.  The embedding is
pure, so the input collection is not mutated. -/
theorem flip_source_tasks_spec (T : List SrcTask) (i : Nat) (task : SrcTask)
    (h : T[i]? = some task) :
    (flip_source_tasks T).length = T.length ∧
    (flip_source_tasks T)[i]? =
      some { params := task.params
             values := task.values.map fun row => row.map fun v => -1 * v } := by
  refine ⟨by simp [flip_source_tasks], ?_⟩
  unfold flip_source_tasks
  rw [List.getElem?_map, h]
  rfl

/-- Witness for C4 at a concrete collection and index. -/
theorem flip_source_tasks_spec_witness :
    (flip_source_tasks [⟨[[1,2]],[[10]]⟩, ⟨[[3,4]],[[20]]⟩]).length = 2 ∧
    (flip_source_tasks [⟨[[1,2]],[[10]]⟩, ⟨[[3,4]],[[20]]⟩])[1]? =
      some { params := [[3,4]]
             values := ([[20]] : Mat).map fun row => row.map fun v => -1 * v } :=
  flip_source_tasks_spec [⟨[[1,2]],[[10]]⟩, ⟨[[3,4]],[[20]]⟩] 1
    ⟨[[3,4]],[[20]]⟩ (by decide)

/-- C5: forward followed by reverse is the identity for both
`standardize` (whenever every `std` entry is nonzero) and `normalize`
(whenever `min` and `max` differ in every column), over exact rational
arithmetic, for samples whose rows are covered by the statistics
vectors. -/
theorem standardize_normalize_roundtrip (X : Mat) (mean std mn mx : List ℚ)
    (hml : ∀ r ∈ X, r.length ≤ mean.length)
    (hsl : ∀ r ∈ X, r.length ≤ std.length)
    (hstd : ∀ z ∈ std, z ≠ 0)
    (hnl : ∀ r ∈ X, r.length ≤ mn.length)
    (hxl : ∀ r ∈ X, r.length ≤ mx.length)
    (hmm : ∀ p ∈ mn.zip mx, p.1 ≠ p.2) :
    ((Scaler.standardize X mean std "forward").bind
      fun y => Scaler.standardize y mean std "reverse") = some X ∧
    ((Scaler.normalize X mn mx "forward").bind
      fun y => Scaler.normalize y mn mx "reverse") = some X := by
  constructor
  · exact congrArg some (by
      rw [List.map_map]
      exact map_eq_self_of fun r hr =>
        zipWith3_std_roundtrip r mean std (hml r hr) (hsl r hr) hstd)
  · exact congrArg some (by
      rw [List.map_map]
      exact map_eq_self_of fun r hr =>
        zipWith3_norm_roundtrip r mn mx (hnl r hr) (hxl r hr) hmm)

/-- Witness for C5 at a concrete sample and statistics. -/
theorem standardize_normalize_roundtrip_witness :
    ((Scaler.standardize [[1, 2], [3, 4]] [2, 3] [1, 2] "forward").bind
      fun y => Scaler.standardize y [2, 3] [1, 2] "reverse") =
        some [[1, 2], [3, 4]] ∧
    ((Scaler.normalize [[1, 2], [3, 4]] [1, 2] [3, 4] "forward").bind
      fun y => Scaler.normalize y [1, 2] [3, 4] "reverse") =
        some [[1, 2], [3, 4]] :=
  standardize_normalize_roundtrip [[1, 2], [3, 4]] [2, 3] [1, 2] [1, 2] [3, 4]
    (by decide) (by decide) (by decide) (by decide) (by decide) (by decide)

/-- C8: construction raises exactly when `param_type` or `value_type`
is outside `SUPP_TYPES`; a successful construction stores both modes,
initializes the fit-state flag to `false` and computes no statistics. -/
theorem scaler_new_spec (p v : String) :
    (isErr (Scaler.new p v) = true ↔
      (p ∉ Scaler.SUPP_TYPES ∨ v ∉ Scaler.SUPP_TYPES)) ∧
    (∀ sc : Scaler, Scaler.new p v = .ok sc →
      sc.param_type = p ∧ sc.value_type = v ∧ sc.is_fit = false ∧
      sc.param_stats = none ∧ sc.value_stats = none) := by
  constructor
  · unfold Scaler.new isErr
    by_cases hp : p ∈ Scaler.SUPP_TYPES <;>
      by_cases hv : v ∈ Scaler.SUPP_TYPES <;> simp [hp, hv]
  · intro sc hsc
    unfold Scaler.new at hsc
    by_cases hp : p ∈ Scaler.SUPP_TYPES <;>
      by_cases hv : v ∈ Scaler.SUPP_TYPES <;> simp [hp, hv] at hsc
    subst hsc
    exact ⟨rfl, rfl, rfl, rfl, rfl⟩

/-- Witness for C8: a successful concrete construction. -/
theorem scaler_new_spec_witness :
    (⟨"standardization", "normalization", false, none, none⟩ : Scaler).param_type
        = "standardization" ∧
    (⟨"standardization", "normalization", false, none, none⟩ : Scaler).value_type
        = "normalization" ∧
    (⟨"standardization", "normalization", false, none, none⟩ : Scaler).is_fit
        = false ∧
    (⟨"standardization", "normalization", false, none, none⟩ : Scaler).param_stats
        = none ∧
    (⟨"standardization", "normalization", false, none, none⟩ : Scaler).value_stats
        = none :=
  (scaler_new_spec "standardization" "normalization").2
    ⟨"standardization", "normalization", false, none, none⟩ rfl

/-- C9: `transform` and `inverse_transform` raise (the 2D assert fails)
exactly when the sample's rank is not 2; a rank-2 sample always passes
the shape check.  The embedding never reshapes: the `ok` result is
computed from the sample's own rows. -/
theorem transform_shape_contract (sc : Scaler) (a : NpA) (ty : String) :
    (isErr (sc.transform a ty) = true ↔ a.ndim ≠ 2) ∧
    (isErr (sc.inverse_transform a ty) = true ↔ a.ndim ≠ 2) := by
  cases a <;>
    simp [Scaler.transform, Scaler.inverse_transform, NpA.ndim, isErr]

/-- C10: the `if/elif` dispatch chains have no `else`: an unknown `type`
flag makes `transform` / `inverse_transform` return `None` (not raise),
and an unknown `direction` flag makes `standardize` / `normalize`
return `None`. -/
theorem unknown_flag_returns_none (sc : Scaler) (m x : Mat)
    (mean std mn mx : List ℚ) (ty d : String)
    (h1 : ty ≠ "params") (h2 : ty ≠ "values")
    (h3 : d ≠ "forward") (h4 : d ≠ "reverse") :
    sc.transform (.mk2 m) ty = .ok none ∧
    sc.inverse_transform (.mk2 m) ty = .ok none ∧
    Scaler.standardize x mean std d = none ∧
    Scaler.normalize x mn mx d = none := by
  simp [Scaler.transform, Scaler.inverse_transform, Scaler.transform2,
    Scaler.inverse_transform2, Scaler.standardize, Scaler.normalize,
    h1, h2, h3, h4]

/-- Witness for C10 at concrete unknown flags. -/
theorem unknown_flag_returns_none_witness :
    (⟨"identity", "identity", false, none, none⟩ : Scaler).transform
        (.mk2 [[1]]) "samples" = .ok none ∧
    (⟨"identity", "identity", false, none, none⟩ : Scaler).inverse_transform
        (.mk2 [[1]]) "samples" = .ok none ∧
    Scaler.standardize [[1]] [0] [1] "backward" = none ∧
    Scaler.normalize [[1]] [0] [1] "backward" = none :=
  unknown_flag_returns_none ⟨"identity", "identity", false, none, none⟩
    [[1]] [[1]] [0] [1] [0] [1] "samples" "backward"
    (by decide) (by decide) (by decide) (by decide)

/-- C3: on a fitted scaler and a 2D sample, `inverse_transform` agrees
with `transform` whenever the configured mode for the given type flag is
`normalization` or `standardization` (both call the forward formula);
only the `identity` branch passes direction `reverse`. -/
theorem inverse_transform_is_forward (sc : Scaler) (m : Mat) (ty : String)
    (hfit : sc.param_stats.isSome = true ∧ sc.value_stats.isSome = true)
    (hty : ty = "params" ∨ ty = "values") :
    (modeOf sc ty = "normalization" ∨ modeOf sc ty = "standardization" →
      sc.inverse_transform (.mk2 m) ty = sc.transform (.mk2 m) ty) ∧
    (modeOf sc ty = "identity" →
      sc.inverse_transform (.mk2 m) ty =
        .ok (some (Scaler.identity m "reverse"))) := by
  rcases hty with h | h <;> subst h <;>
    constructor <;> intro hmode
  · rcases hmode with h | h <;>
      simp_all [modeOf, Scaler.inverse_transform, Scaler.transform,
        Scaler.inverse_transform2, Scaler.transform2]
  · simp_all [modeOf, Scaler.inverse_transform, Scaler.inverse_transform2]
  · rcases hmode with h | h <;>
      simp_all [modeOf, Scaler.inverse_transform, Scaler.transform,
        Scaler.inverse_transform2, Scaler.transform2]
  · simp_all [modeOf, Scaler.inverse_transform, Scaler.inverse_transform2]

/-- Witness for C3: a fitted normalization-mode scaler on which the
inverse transform re-applies the forward transform. -/
theorem inverse_transform_is_forward_witness :
    (⟨"normalization", "standardization", false,
        some { min := [1], max := [3] },
        some { mean := [2], std := [1] }⟩ : Scaler).inverse_transform
      (.mk2 [[2]]) "params" =
    (⟨"normalization", "standardization", false,
        some { min := [1], max := [3] },
        some { mean := [2], std := [1] }⟩ : Scaler).transform
      (.mk2 [[2]]) "params" :=
  (inverse_transform_is_forward
    ⟨"normalization", "standardization", false,
      some { min := [1], max := [3] }, some { mean := [2], std := [1] }⟩
    [[2]] "params" ⟨by decide, by decide⟩ (Or.inl rfl)).1 (Or.inl (by decide))

/-- C7: the worked example.  Constructing a normalization/normalization
scaler and fitting it on
`[{params:[[1,2]], values:[[10]]}, {params:[[3,4]], values:[[20]]}]`
stores `param_stats` min `[1,2]` / max `[3,4]` and `value_stats` min
`[10]` / max `[20]`, and returns transformed params `[[0,0],[1,1]]` and
transformed values `[[0],[1]]`. -/
theorem fit_transform_example :
    Scaler.new "normalization" "normalization" =
      .ok ⟨"normalization", "normalization", false, none, none⟩ ∧
    (Scaler.fit_transform_tasks id
        ⟨"normalization", "normalization", false, none, none⟩
        [⟨[[1,2]],[[10]]⟩, ⟨[[3,4]],[[20]]⟩]).1.param_stats =
      some { min := [1,2], max := [3,4] } ∧
    (Scaler.fit_transform_tasks id
        ⟨"normalization", "normalization", false, none, none⟩
        [⟨[[1,2]],[[10]]⟩, ⟨[[3,4]],[[20]]⟩]).1.value_stats =
      some { min := [10], max := [20] } ∧
    (Scaler.fit_transform_tasks id
        ⟨"normalization", "normalization", false, none, none⟩
        [⟨[[1,2]],[[10]]⟩, ⟨[[3,4]],[[20]]⟩]).2 =
      [⟨some [[0,0]], some [[0]]⟩, ⟨some [[1,1]], some [[1]]⟩] := by
  refine ⟨rfl, by decide, by decide, ?_⟩
  norm_num [Scaler.fit_transform_tasks, Scaler.compute_stats, statsFor,
    colwise, numCols, getCol, allParams, allValues, transTask, pstats, vstats,
    Scaler.normalize, Scaler.standardize, Scaler.identity, zipWith3,
    npMean, npStd, popVar, emptyStats, List.foldl, List.range, List.range.loop]

/-- C1 fails on the code: `transform_tasks`'s `append` sits outside the
`for` loop, so on a fitted scaler and a two-task input the result is a
single-entry list holding only the last task's transform, not one entry
per input task. -/
theorem transform_tasks_collapses :
    Scaler.transform_tasks
        (Scaler.fit_transform_tasks id
          ⟨"identity", "identity", false, none, none⟩
          [⟨[[1,2]],[[10]]⟩, ⟨[[3,4]],[[20]]⟩]).1
        [⟨[[1,2]],[[10]]⟩, ⟨[[3,4]],[[20]]⟩] =
      some [⟨some [[3,4]], some [[20]]⟩] ∧
    Option.map List.length
      (Scaler.transform_tasks
        (Scaler.fit_transform_tasks id
          ⟨"identity", "identity", false, none, none⟩
          [⟨[[1,2]],[[10]]⟩, ⟨[[3,4]],[[20]]⟩]).1
        [⟨[[1,2]],[[10]]⟩, ⟨[[3,4]],[[20]]⟩]) = some 1 :=
  ⟨by decide, by decide⟩

/-- C2 fails on the code: `is_fit` is initialized to `False` and no
method ever sets it to `True`; in particular it is still `False` after
`fit_transform_tasks`.  The first conjunct is concrete, the second shows
`fit_transform_tasks` leaves the flag untouched for every scaler and
input. -/
theorem is_fit_never_set :
    (Scaler.new "normalization" "normalization" =
      .ok ⟨"normalization", "normalization", false, none, none⟩ ∧
    (Scaler.fit_transform_tasks id
        ⟨"normalization", "normalization", false, none, none⟩
        [⟨[[1,2]],[[10]]⟩, ⟨[[3,4]],[[20]]⟩]).1.is_fit = false) ∧
    ∀ (s : ℚ → ℚ) (sc : Scaler) (tasks : List SrcTask),
      (Scaler.fit_transform_tasks s sc tasks).1.is_fit = sc.is_fit :=
  ⟨⟨rfl, by decide⟩, fun _ _ _ => rfl⟩

lemma npMean_replicate (n : Nat) (k : ℚ) (hn : n ≠ 0) :
    npMean (List.replicate n k) = k := by
  have hq : (n : ℚ) ≠ 0 := Nat.cast_ne_zero.mpr hn
  simp [npMean, List.sum_replicate, nsmul_eq_mul]
  field_simp

lemma popVar_replicate (n : Nat) (k : ℚ) :
    popVar (List.replicate n k) = 0 := by
  cases n with
  | zero => simp [popVar]
  | succ m =>
    simp [popVar, npMean_replicate (m + 1) k (Nat.succ_ne_zero m),
      List.map_replicate, List.sum_replicate]

lemma getCol_const {X : Mat} {c : Nat} {k : ℚ}
    (h : ∀ r ∈ X, r.getD c 0 = k) :
    getCol X c = List.replicate X.length k := by
  rw [List.eq_replicate_iff]
  refine ⟨by simp [getCol], ?_⟩
  intro b hb
  rcases List.mem_map.mp hb with ⟨r, hr, hrb⟩
  rw [← hrb]
  exact h r hr

/-- C6: fitting a standardization-mode scaler on data whose column `c`
is constant stores `1` (not `0`) as that column's std and the column's
mean as its mean, and the forward standardize formula for that column
degenerates to `x − mean` (no division by zero).  The square-root model
`s` only needs `s 0 = 0`, true of the real square root. -/
theorem std_zero_guard (s : ℚ → ℚ) (sc : Scaler) (tasks : List SrcTask)
    (c : Nat) (k x : ℚ)
    (hs : s 0 = 0)
    (hmode : sc.param_type = "standardization")
    (hne : allParams tasks ≠ [])
    (hc : c < numCols (allParams tasks))
    (hconst : ∀ r ∈ allParams tasks, r.getD c 0 = k) :
    (pstats (Scaler.compute_stats s sc tasks)).std[c]? = some 1 ∧
    (pstats (Scaler.compute_stats s sc tasks)).mean[c]? = some k ∧
    (x - k) / (pstats (Scaler.compute_stats s sc tasks)).std.getD c 0
      = x - k := by
  have hlen : (allParams tasks).length ≠ 0 :=
    fun h0 => hne (List.length_eq_zero.mp h0)
  have hcol : getCol (allParams tasks) c =
      List.replicate (allParams tasks).length k := getCol_const hconst
  have hvar : npStd s (getCol (allParams tasks) c) = 0 := by
    rw [npStd, hcol, popVar_replicate, hs]
  have hmean : npMean (getCol (allParams tasks) c) = k := by
    rw [hcol]
    exact npMean_replicate _ _ hlen
  have hstats : pstats (Scaler.compute_stats s sc tasks) =
      statsFor s "standardization" (allParams tasks) := by
    rw [Scaler.compute_stats, hmode]
    rfl
  have hstd : (pstats (Scaler.compute_stats s sc tasks)).std[c]? = some 1 := by
    rw [hstats, statsFor]
    simp only [reduceIte, String.reduceEq, colwise, List.map_map,
      List.getElem?_map, List.getElem?_range hc, Option.map_some]
    simp [hvar]
  refine ⟨hstd, ?_, ?_⟩
  · rw [hstats, statsFor]
    simp only [reduceIte, String.reduceEq, colwise,
      List.getElem?_map, List.getElem?_range hc]
    simp [hmean]
  · rw [List.getD_eq_getElem?_getD, hstd]
    simp

/-- Witness for C6: a constant parameter column `[[5],[5]]`, with the
identity function standing in for the square root (`id 0 = 0`). -/
theorem std_zero_guard_witness :
    (pstats (Scaler.compute_stats id
        ⟨"standardization", "identity", false, none, none⟩
        [⟨[[5],[5]],[[1],[2]]⟩])).std[0]? = some 1 ∧
    (pstats (Scaler.compute_stats id
        ⟨"standardization", "identity", false, none, none⟩
        [⟨[[5],[5]],[[1],[2]]⟩])).mean[0]? = some 5 ∧
    ((7 : ℚ) - 5) / (pstats (Scaler.compute_stats id
        ⟨"standardization", "identity", false, none, none⟩
        [⟨[[5],[5]],[[1],[2]]⟩])).std.getD 0 0 = 7 - 5 :=
  std_zero_guard id ⟨"standardization", "identity", false, none, none⟩
    [⟨[[5],[5]],[[1],[2]]⟩] 0 5 7 rfl rfl (by decide) (by decide) (by decide)
